import Mathlib

/-!
Shallow embedding of the scheduling bot in `src/bot.py`.

The bot is a Telegram front-end that turns free-form text into Google
Calendar mutations.  The embedding models the decision logic of the four
handlers (`get_schedule_command`, `handle_message`,
`delete_selective_command`, `button_handler`) together with the helper
behaviour they rely on:

* Python string operations used by the code (`in` on strings after
  `.lower()`, `startswith`, `split`) are re-implemented as structurally
  recursive functions on character lists so that concrete evaluation goes
  through the kernel.
* The Google Calendar service is abstracted as a `GatewayBehavior` record
  of oracles: whether `get_calendar_service()` succeeds, what an
  `events().list(...)` call returns (`none` models a raised exception),
  and whether an insert / delete succeeds.
* Clock-dependent `timeMin` strings are abstracted by the `TimeFloor`
  inductive, recording which construction the code uses
  (`datetime.now(tz).replace(hour=0, ...)` vs `datetime.utcnow()`).
* A raised exception that escapes a handler (no surrounding
  `try`/`except` in the Python source) is modelled by a `crashed := true`
  field in the handler result.
-/

/-! ## Python string primitives -/

/-- Lower-case one character, ASCII range, as Python `str.lower` acts on
the ASCII summaries this bot manipulates. -/
def charToLower (c : Char) : Char :=
  if 65 ≤ c.toNat ∧ c.toNat ≤ 90 then Char.ofNat (c.toNat + 32) else c

/-- Lower-case a string character by character. -/
def toLowerStr (s : String) : String :=
  String.mk (s.data.map charToLower)

/-- Does the second list occur as a leading segment of the first argument
list?  `charsStartWith pat s` is true when `s` starts with `pat`. -/
def charsStartWith : List Char → List Char → Bool
  | [], _ => true
  | _ :: _, [] => false
  | p :: ps, c :: cs => p == c && charsStartWith ps cs

/-- Substring containment on character lists: `charsContain s pat` is true
when `pat` occurs contiguously inside `s` (the semantics of the Python
expression `pat in s`). -/
def charsContain : List Char → List Char → Bool
  | [], pat => pat.isEmpty
  | c :: rest, pat => charsStartWith pat (c :: rest) || charsContain rest pat

/-- Python `pat in s` on strings. -/
def strContains (s pat : String) : Bool :=
  charsContain s.data pat.data

/-- Python `s.startswith(pre)`. -/
def strStartsWith (s pre : String) : Bool :=
  charsStartWith pre.data s.data

/-- Fuel-driven worker for the Python call `s.split(sep)` with a non-empty
separator: splits at every non-overlapping left-to-right occurrence. -/
def splitOnSubAux (sep : List Char) : Nat → List Char → List (List Char)
  | _, [] => [[]]
  | 0, rest => [rest]
  | Nat.succ fuel, x :: xs =>
    if !sep.isEmpty && charsStartWith sep (x :: xs) then
      [] :: splitOnSubAux sep fuel (List.drop (sep.length - 1) xs)
    else
      match splitOnSubAux sep fuel xs with
      | [] => [[x]]
      | y :: ys => (x :: y) :: ys

/-- Python `s.split(sep)` for a non-empty separator string. -/
def pySplit (s sep : String) : List String :=
  (splitOnSubAux sep.data s.data.length s.data).map String.mk

/-! ## Calendar events and the exclusion filter -/

/-- Immutable view of one Google Calendar event as the handlers use it:
the opaque `id`, the possibly missing `summary` (the code reads it with
`event.get("summary", "")`), and the raw start string. -/
structure CalendarEvent where
  id : String
  summary : Option String
  start : String
deriving Repr, DecidableEq

/-- The list comprehension the code repeats at `src/bot.py:125`, `:212`
and `:265`, generalised over the excluded substring:
`[event for event in events if sub not in event.get("summary", "").lower()]`. -/
def filterExclude (sub : String) (events : List CalendarEvent) : List CalendarEvent :=
  events.filter (fun e => !(strContains (toLowerStr (e.summary.getD "")) sub))

/-- The concrete exclusion used by the bot: drop every event whose
lower-cased summary contains `"happy birthday"`. -/
def filterBirthday (events : List CalendarEvent) : List CalendarEvent :=
  filterExclude "happy birthday" events

/-! ## Field bags and the validator (src/bot.py lines 144-161) -/

/-- The unordered field bag returned by the AI extractor
(`parse_schedule_with_ai`), modelled as an association list of
string-valued entries.  here `find` is the Python `dict.get(k)` (first matching
entry) and `hasKey` is the Python `k in dict`. -/
structure FieldBag where
  entries : List (String × String)
deriving Repr, DecidableEq

/-- Python `bag.get(k)`: the value under `k`, or `none` when absent. -/
def FieldBag.find (b : FieldBag) (k : String) : Option String :=
  (b.entries.find? (fun p => p.1 == k)).map (fun p => p.2)

/-- Python `k in bag`. -/
def FieldBag.hasKey (b : FieldBag) (k : String) : Bool :=
  (b.find k).isSome

/-- Python truthiness of an optional string: `None` and `""` are falsy. -/
def pyTruthy : Option String → Bool
  | none => false
  | some s => !s.isEmpty

/-- Python `a or b` on optional strings: the left value when truthy,
otherwise the right value. -/
def pyOr (a b : Option String) : Option String :=
  if pyTruthy a then a else b

/-- The canonical validated intent built from the field bag: the resolved
title, `lokasi` defaulting to `""`, the raw `tanggal` and `waktu` strings,
and `kategori` defaulting to `"Lainnya"`. -/
structure ScheduleIntent where
  title : String
  location : String
  date : String
  time : String
  category : String
deriving Repr, DecidableEq

/-- Outcome of the validation prelude of `handle_message`. -/
inductive ValidationResult where
  | missingDateTime
  | missingTitle
  | ok (intent : ScheduleIntent)
deriving Repr, DecidableEq

/-- The validation prelude of `handle_message` (src/bot.py:151-161):
`if not schedule_data or "tanggal" not in schedule_data or "waktu" not in
schedule_data` rejects first (the quoting differs from the source, which
uses single quotes); then
`judul_acara = schedule_data.get("judul") or schedule_data.get("judul_acara")`
with `if not judul_acara` rejects; otherwise the intent fields are read
off the bag (`kategori` via `.get("kategori", "Lainnya")`, `lokasi` via
`.get("lokasi", "")`, as done later at lines 168-169). -/
def validate (b : FieldBag) : ValidationResult :=
  if b.entries.isEmpty || !b.hasKey "tanggal" || !b.hasKey "waktu" then
    ValidationResult.missingDateTime
  else
    match pyOr (b.find "judul") (b.find "judul_acara") with
    | none => ValidationResult.missingTitle
    | some t =>
      if t.isEmpty then ValidationResult.missingTitle
      else ValidationResult.ok
        { title := t
          location := (b.find "lokasi").getD ""
          date := (b.find "tanggal").getD ""
          time := (b.find "waktu").getD ""
          category := (b.find "kategori").getD "Lainnya" }

/-- The user-facing message for the date/time rejection (src/bot.py:153). -/
def msgMissingDateTime : String :=
  "Maaf, saya tidak bisa menentukan tanggal atau waktu."

/-- The user-facing message for the title rejection (src/bot.py:160). -/
def msgMissingTitle : String :=
  "Maaf, saya tidak bisa menentukan judul acara dari permintaan Anda."

/-- The reply sent for each rejection, `none` on success. -/
def rejectionMessage : ValidationResult → Option String
  | ValidationResult.missingDateTime => some msgMissingDateTime
  | ValidationResult.missingTitle => some msgMissingTitle
  | ValidationResult.ok _ => none

/-! ## Naive datetimes (datetime.fromisoformat / timedelta(hours=1)) -/

/-- A naive calendar datetime, the shape `datetime.fromisoformat` yields
for `"YYYY-MM-DDTHH:MM:SS"`. -/
structure DateTimeV where
  year : Nat
  month : Nat
  day : Nat
  hour : Nat
  minute : Nat
  second : Nat
deriving Repr, DecidableEq

/-- Gregorian leap-year rule. -/
def isLeapYear (y : Nat) : Bool :=
  (y % 4 == 0 && y % 100 != 0) || y % 400 == 0

/-- Number of days in a month of the Gregorian calendar. -/
def daysInMonth (y m : Nat) : Nat :=
  if m == 2 then (if isLeapYear y then 29 else 28)
  else if m == 4 || m == 6 || m == 9 || m == 11 then 30
  else 31

/-- Python `dt + timedelta(hours=1)` on a naive datetime: bump the hour,
rolling over day, month and year as needed. -/
def addOneHour (dt : DateTimeV) : DateTimeV :=
  if dt.hour + 1 ≤ 23 then { dt with hour := dt.hour + 1 }
  else if dt.day + 1 ≤ daysInMonth dt.year dt.month then
    { dt with hour := 0, day := dt.day + 1 }
  else if dt.month + 1 ≤ 12 then
    { dt with hour := 0, day := 1, month := dt.month + 1 }
  else
    { dt with hour := 0, day := 1, month := 1, year := dt.year + 1 }

/-- Split a character list at every occurrence of one separator character
(Python `s.split(c)` semantics). -/
def splitOnChar (c : Char) : List Char → List (List Char)
  | [] => [[]]
  | x :: xs =>
    if x == c then [] :: splitOnChar c xs
    else
      match splitOnChar c xs with
      | [] => [[x]]
      | y :: ys => (x :: y) :: ys

/-- The value of a decimal digit character, `none` for non-digits. -/
def digitVal (c : Char) : Option Nat :=
  if 48 ≤ c.toNat ∧ c.toNat ≤ 57 then some (c.toNat - 48) else none

/-- Read a decimal numeral left to right. -/
def digitsToNatAux : List Char → Nat → Option Nat
  | [], acc => some acc
  | c :: cs, acc =>
    match digitVal c with
    | none => none
    | some d => digitsToNatAux cs (acc * 10 + d)

/-- Parse an exactly `n`-digit decimal field. -/
def parseFixed (n : Nat) (s : String) : Option Nat :=
  if s.data.length == n then digitsToNatAux s.data 0 else none

/-- Parse the `YYYY-MM-DD` date part, validating the month and day ranges
as `datetime.fromisoformat` does. -/
def parseDate (s : String) : Option (Nat × Nat × Nat) :=
  match (splitOnChar '-' s.data).map String.mk with
  | [ys, ms, ds] =>
    match parseFixed 4 ys, parseFixed 2 ms, parseFixed 2 ds with
    | some y, some m, some d =>
      if 1 ≤ m ∧ m ≤ 12 ∧ 1 ≤ d ∧ d ≤ daysInMonth y m then some (y, m, d)
      else none
    | _, _, _ => none
  | _ => none

/-- Parse the `HH:MM:SS` time part, validating field ranges. -/
def parseTime (s : String) : Option (Nat × Nat × Nat) :=
  match (splitOnChar ':' s.data).map String.mk with
  | [hs, ms, ss] =>
    match parseFixed 2 hs, parseFixed 2 ms, parseFixed 2 ss with
    | some h, some m, some s2 =>
      if h ≤ 23 ∧ m ≤ 59 ∧ s2 ≤ 59 then some (h, m, s2) else none
    | _, _, _ => none
  | _ => none

/-- Model of `datetime.fromisoformat` on the canonical
`"YYYY-MM-DDTHH:MM:SS"` shape the code assembles at src/bot.py:165;
`none` models the `ValueError` the call raises on malformed input. -/
def parseIso (s : String) : Option DateTimeV :=
  match (splitOnChar 'T' s.data).map String.mk with
  | [ds, ts] =>
    match parseDate ds, parseTime ts with
    | some (y, mo, d), some (h, mi, se) => some ⟨y, mo, d, h, mi, se⟩
    | _, _ => none
  | _ => none

/-! ## Event body construction (src/bot.py lines 163-181) -/

/-- Percent-encoding of `urllib.parse.quote_plus`: letters, digits and
`_.-~` pass through, a space becomes `+`, every other character is
percent-encoded byte-wise from its UTF-8 form with uppercase hex. -/
def hexDigitChar (n : Nat) : Char :=
  if n < 10 then Char.ofNat (48 + n) else Char.ofNat (55 + n)

/-- Is the character left unescaped by `quote_plus`? -/
def isSafeChar (c : Char) : Bool :=
  c.isAlphanum || c == '_' || c == '.' || c == '-' || c == '~'

/-- Model of `urllib.parse.quote_plus`. -/
def quotePlus (s : String) : String :=
  s.data.foldl
    (fun acc c =>
      if c == ' ' then acc ++ "+"
      else if isSafeChar c then acc ++ String.mk [c]
      else acc ++ String.join
        (((String.mk [c]).toUTF8.toList).map
          (fun b => "%" ++ String.mk [hexDigitChar (b.toNat / 16), hexDigitChar (b.toNat % 16)])))
    ""

/-- The generated map-search link (src/bot.py:172). -/
def mapsLink (location : String) : String :=
  "https://www.google.com/maps/search/?api=1&query=" ++ quotePlus location

/-- The event dictionary passed to `Gateway.insert` (src/bot.py:175-181):
summary, location, description, naive start and end datetimes, and the
fixed timezone string attached to both. -/
structure EventBody where
  summary : String
  location : String
  description : String
  startDT : DateTimeV
  endDT : DateTimeV
  timeZone : String
deriving Repr, DecidableEq

/-- The body-building section of `handle_message` (src/bot.py:165-181):
parse `f"{tanggal}T{waktu}"`, add the fixed one-hour default duration,
build the description from the category and — when the location string is
truthy — the map-search link.  `none` models the `ValueError` raised by
`fromisoformat` (caught by the surrounding `try`). -/
def buildEventBody (i : ScheduleIntent) : Option EventBody :=
  match parseIso (i.date ++ "T" ++ i.time) with
  | none => none
  | some startDT =>
    some
      { summary := i.title
        location := i.location
        description :=
          if i.location.isEmpty then "Kategori: " ++ i.category
          else "Kategori: " ++ i.category
            ++ "\n\n📍 Buka Lokasi di Peta: " ++ mapsLink i.location
        startDT := startDT
        endDT := addOneHour startDT
        timeZone := "Asia/Jakarta" }

/-! ## Gateway abstraction -/

/-- Which clock construction feeds the `timeMin` parameter of a list
call: `datetime.now(tz).replace(hour=0, minute=0, second=0, ...)`
(src/bot.py:117) or `datetime.utcnow()` (src/bot.py:205 and :259). -/
inductive TimeFloor where
  | localStartOfToday
  | utcNow
deriving Repr, DecidableEq

/-- The parameters of one `service.events().list(...)` call. -/
structure ListQuery where
  timeMin : TimeFloor
  maxResults : Option Nat
  singleEvents : Bool
  orderBy : Option String
deriving Repr, DecidableEq

/-- The list query of `get_schedule_command` (src/bot.py:119-122). -/
def readQuery : ListQuery :=
  { timeMin := TimeFloor.localStartOfToday
    maxResults := some 20
    singleEvents := true
    orderBy := some "startTime" }

/-- The list query of `delete_selective_command` (src/bot.py:206-209). -/
def selectQuery : ListQuery :=
  { timeMin := TimeFloor.utcNow
    maxResults := some 20
    singleEvents := true
    orderBy := some "startTime" }

/-- The list query of the `confirm_delete_all` branch
(src/bot.py:260-262): no `maxResults`, no `orderBy`. -/
def confirmDeleteQuery : ListQuery :=
  { timeMin := TimeFloor.utcNow
    maxResults := none
    singleEvents := true
    orderBy := none }

/-- One observable call the handlers make against the calendar backend. -/
inductive GatewayCall where
  | listCall (q : ListQuery)
  | insertCall (body : EventBody)
  | deleteCall (id : String)
deriving Repr, DecidableEq

/-- Oracles describing how the external Google Calendar behaves during
one handler run: whether `get_calendar_service()` succeeds, what each
list call returns (`none` models a raised exception), and whether each
insert / delete succeeds (`false` models a raised exception). -/
structure GatewayBehavior where
  serviceOk : Bool
  listResult : ListQuery → Option (List CalendarEvent)
  insertOk : EventBody → Bool
  deleteOk : String → Bool

/-- The ids of the delete calls in a call trace. -/
def deleteCallsOf (calls : List GatewayCall) : List String :=
  calls.filterMap (fun c =>
    match c with
    | GatewayCall.deleteCall i => some i
    | _ => none)

/-! ## ReadSchedule: get_schedule_command (src/bot.py:112-141) -/

/-- The reply of `get_schedule_command`: the generic error message from
its `except` arm, the "nothing found" message, or the rendered listing of
the first ten filtered events. -/
inductive ReadReply where
  | errorReply
  | nothingFound
  | shown (displayed : List CalendarEvent)
deriving Repr, DecidableEq

/-- Result of one `get_schedule_command` run. -/
structure ReadResult where
  crashed : Bool
  reply : ReadReply
  calls : List GatewayCall
deriving Repr, DecidableEq

/-- Handler `get_schedule_command`: the whole body sits inside one
`try`/`except`, so a failing service acquisition or list call yields the
generic error reply and never escapes; otherwise the fetched events are
birthday-filtered, an empty result reports "nothing found", and a
non-empty one displays the first ten (`events[:10]`, src/bot.py:132). -/
def getScheduleCommand (gw : GatewayBehavior) : ReadResult :=
  if !gw.serviceOk then ⟨false, ReadReply.errorReply, []⟩
  else
    match gw.listResult readQuery with
    | none => ⟨false, ReadReply.errorReply, [GatewayCall.listCall readQuery]⟩
    | some items =>
      let events := filterBirthday items
      if events.isEmpty then
        ⟨false, ReadReply.nothingFound, [GatewayCall.listCall readQuery]⟩
      else
        ⟨false, ReadReply.shown (events.take 10), [GatewayCall.listCall readQuery]⟩

/-! ## CreateEvent: handle_message (src/bot.py:144-198) -/

/-- Terminal outcome of `handle_message`. -/
inductive HandleOutcome where
  | rejectedDateTime
  | rejectedTitle
  | saveFailed
  | created (body : EventBody)
deriving Repr, DecidableEq

/-- Result of one `handle_message` run. -/
structure MessageResult where
  outcome : HandleOutcome
  calls : List GatewayCall
  crashed : Bool
deriving Repr, DecidableEq

/-- Handler `handle_message` after extraction: the validation prelude rejects
before any service or parsing work; the `try` block then acquires the
service, parses the start instant, and inserts.  Every failure inside the
`try` (service acquisition, `fromisoformat`, insert) is caught by the
`except` arm and reported as `saveFailed`, so the handler never crashes. -/
def handleMessage (gw : GatewayBehavior) (b : FieldBag) : MessageResult :=
  match validate b with
  | ValidationResult.missingDateTime => ⟨HandleOutcome.rejectedDateTime, [], false⟩
  | ValidationResult.missingTitle => ⟨HandleOutcome.rejectedTitle, [], false⟩
  | ValidationResult.ok i =>
    if !gw.serviceOk then ⟨HandleOutcome.saveFailed, [], false⟩
    else
      match buildEventBody i with
      | none => ⟨HandleOutcome.saveFailed, [], false⟩
      | some body =>
        if gw.insertOk body then
          ⟨HandleOutcome.created body, [GatewayCall.insertCall body], false⟩
        else
          ⟨HandleOutcome.saveFailed, [GatewayCall.insertCall body], false⟩

/-! ## ListDeletable: delete_selective_command (src/bot.py:202-226) -/

/-- The reply of `delete_selective_command`: nothing (when the handler
crashed), the "nothing to delete" message, or the keyboard of per-event
delete buttons (label, callback data). -/
inductive SelectReply where
  | noReply
  | nothingToDelete
  | choices (buttons : List (String × String))
deriving Repr, DecidableEq

/-- Result of one `delete_selective_command` run. -/
structure SelectResult where
  crashed : Bool
  reply : SelectReply
  calls : List GatewayCall
deriving Repr, DecidableEq

/-- Handler `delete_selective_command` has no `try`/`except` at all: a failing
service acquisition or list call propagates out of the handler
(`crashed`), as does the `KeyError` from `event["summary"]` when a
displayed event lacks a summary.  Otherwise the fetched events are
birthday-filtered and the first ten (`events[:10]`, src/bot.py:219)
become buttons with callback data `"delete_event_" + id`. -/
def deleteSelectiveCommand (gw : GatewayBehavior) : SelectResult :=
  if !gw.serviceOk then ⟨true, SelectReply.noReply, []⟩
  else
    match gw.listResult selectQuery with
    | none => ⟨true, SelectReply.noReply, [GatewayCall.listCall selectQuery]⟩
    | some items =>
      let events := filterBirthday items
      if events.isEmpty then
        ⟨false, SelectReply.nothingToDelete, [GatewayCall.listCall selectQuery]⟩
      else if (events.take 10).any (fun e => e.summary.isNone) then
        ⟨true, SelectReply.noReply, [GatewayCall.listCall selectQuery]⟩
      else
        ⟨false,
          SelectReply.choices
            ((events.take 10).map
              (fun e => ("❌ " ++ e.summary.getD "", "delete_event_" ++ e.id))),
          [GatewayCall.listCall selectQuery]⟩

/-! ## Button callbacks: button_handler (src/bot.py:241-278) -/

/-- The deletion loop of the `confirm_delete_all` branch
(src/bot.py:267-273): walk the filtered events in order, attempt the
delete call for every one, count only the successes; a failed delete is
logged and the loop continues.  Returns the success count and the trace
of attempted delete calls. -/
def deleteAllLoop (ok : String → Bool) : List CalendarEvent → Nat × List GatewayCall
  | [] => (0, [])
  | e :: rest =>
    let r := deleteAllLoop ok rest
    (if ok e.id then r.1 + 1 else r.1, GatewayCall.deleteCall e.id :: r.2)

/-- The final message of the `confirm_delete_all` branch
(src/bot.py:275). -/
def deleteDoneMessage (n : Nat) : String :=
  "✅ Selesai! " ++ toString n ++ " jadwal mendatang telah dihapus."

/-- Result of one `button_handler` run.  `reportedCount` is the success
count interpolated into the final message of the `confirm_delete_all`
branch, `none` for every other branch. -/
structure ButtonResult where
  crashed : Bool
  reply : Option String
  reportedCount : Option Nat
  calls : List GatewayCall
deriving Repr, DecidableEq

/-- Handler `button_handler`: here `get_calendar_service()` runs before any branch and
outside any `try`, so its failure crashes every callback.  The
`delete_event_` branch wraps its single delete in `try`/`except`; the
`confirm_delete_all` branch re-fetches with `confirmDeleteQuery` (not in
a `try`: a list failure crashes), filters, and runs `deleteAllLoop`; the
`cancel_delete` branch only replies; unknown data falls through. -/
def buttonHandler (gw : GatewayBehavior) (data : String) : ButtonResult :=
  if !gw.serviceOk then ⟨true, none, none, []⟩
  else if strStartsWith data "delete_event_" then
    let eventId := (pySplit data "delete_event_").getD 1 ""
    if gw.deleteOk eventId then
      ⟨false, some "Jadwal berhasil dihapus.", none, [GatewayCall.deleteCall eventId]⟩
    else
      ⟨false, some "Gagal menghapus jadwal.", none, [GatewayCall.deleteCall eventId]⟩
  else if data == "confirm_delete_all" then
    match gw.listResult confirmDeleteQuery with
    | none => ⟨true, none, none, [GatewayCall.listCall confirmDeleteQuery]⟩
    | some items =>
      let events := filterBirthday items
      let r := deleteAllLoop gw.deleteOk events
      ⟨false, some (deleteDoneMessage r.1), some r.1,
        GatewayCall.listCall confirmDeleteQuery :: r.2⟩
  else if data == "cancel_delete" then
    ⟨false, some "Aksi dibatalkan.", none, []⟩
  else ⟨false, none, none, []⟩

/-! ## Concrete fixtures -/

/-- Event with mixed-case birthday summary. -/
def evMixed : CalendarEvent := ⟨"ev-mixed", some "Happy Birthday Sam", "2025-06-01T09:00:00"⟩

/-- Event with upper-case birthday summary. -/
def evUpper : CalendarEvent := ⟨"ev-upper", some "HAPPY BIRTHDAY SAM", "2025-06-02T09:00:00"⟩

/-- An ordinary event that survives the filter. -/
def evKeep : CalendarEvent := ⟨"ev-keep", some "Team Meeting", "2025-06-03T09:00:00"⟩

/-- Fifteen eligible (non-birthday) events, more than the display cap. -/
def fifteenEvents : List CalendarEvent :=
  [⟨"e01", some "Event one", ""⟩, ⟨"e02", some "Event two", ""⟩,
   ⟨"e03", some "Event three", ""⟩, ⟨"e04", some "Event four", ""⟩,
   ⟨"e05", some "Event five", ""⟩, ⟨"e06", some "Event six", ""⟩,
   ⟨"e07", some "Event seven", ""⟩, ⟨"e08", some "Event eight", ""⟩,
   ⟨"e09", some "Event nine", ""⟩, ⟨"e10", some "Event ten", ""⟩,
   ⟨"e11", some "Event eleven", ""⟩, ⟨"e12", some "Event twelve", ""⟩,
   ⟨"e13", some "Event thirteen", ""⟩, ⟨"e14", some "Event fourteen", ""⟩,
   ⟨"e15", some "Event fifteen", ""⟩]

/-- Gateway that always returns the fifteen events and always succeeds. -/
def gwFifteen : GatewayBehavior :=
  { serviceOk := true
    listResult := fun _ => some fifteenEvents
    insertOk := fun _ => true
    deleteOk := fun _ => true }

/-- A three-event batch for the partial-failure scenario. -/
def threeEvents : List CalendarEvent :=
  [⟨"ea", some "Alpha", ""⟩, ⟨"eb", some "Beta", ""⟩, ⟨"ec", some "Gamma", ""⟩]

/-- Gateway over the three-event batch whose delete call fails exactly on
the middle event id. -/
def gwOneFails : GatewayBehavior :=
  { serviceOk := true
    listResult := fun _ => some threeEvents
    insertOk := fun _ => true
    deleteOk := fun i => !(i == "eb") }

/-- Gateway whose service acquisition succeeds but whose every list call
raises. -/
def gwListFails : GatewayBehavior :=
  { serviceOk := true
    listResult := fun _ => none
    insertOk := fun _ => true
    deleteOk := fun _ => true }

/-- Gateway whose service acquisition raises. -/
def gwNoService : GatewayBehavior :=
  { serviceOk := false
    listResult := fun _ => some []
    insertOk := fun _ => true
    deleteOk := fun _ => true }

/-- Fully healthy gateway with an empty calendar. -/
def gwOk : GatewayBehavior :=
  { serviceOk := true
    listResult := fun _ => some []
    insertOk := fun _ => true
    deleteOk := fun _ => true }

/-- The field bag of the CreateEvent example: title under the primary
key, a date and a time, no location, no category. -/
def bagShoot : FieldBag :=
  ⟨[("judul", "Shoot"), ("tanggal", "2025-05-01"), ("waktu", "14:00:00")]⟩

/-- The event body `handle_message` builds from `bagShoot`. -/
def shootBody : EventBody :=
  { summary := "Shoot"
    location := ""
    description := "Kategori: Lainnya"
    startDT := ⟨2025, 5, 1, 14, 0, 0⟩
    endDT := ⟨2025, 5, 1, 15, 0, 0⟩
    timeZone := "Asia/Jakarta" }

/-- The intent `validate` builds from `bagShoot`. -/
def shootIntent : ScheduleIntent :=
  { title := "Shoot"
    location := ""
    date := "2025-05-01"
    time := "14:00:00"
    category := "Lainnya" }

/-- Bag with a date but no time key. -/
def bagNoTime : FieldBag := ⟨[("tanggal", "2025-01-01"), ("judul", "Rapat")]⟩

/-- Bag whose title sits only under the fallback key. -/
def bagFallback : FieldBag :=
  ⟨[("tanggal", "2025-01-01"), ("waktu", "10:00:00"), ("judul_acara", "Rapat Tim")]⟩

/-- Bag whose primary title key maps to the empty string. -/
def bagEmptyPrimary : FieldBag :=
  ⟨[("judul", ""), ("judul_acara", "Rapat Tim"), ("tanggal", "2025-01-01"), ("waktu", "10:00:00")]⟩

/-! ## Helper lemmas -/

/-- A bag that has a key has a non-empty entry list. -/
theorem FieldBag.isEmpty_false_of_hasKey (b : FieldBag) (k : String)
    (h : b.hasKey k = true) : b.entries.isEmpty = false := by
  cases he : b.entries with
  | nil =>
    unfold FieldBag.hasKey FieldBag.find at h
    rw [he] at h
    simp [List.find?] at h
  | cons x xs => simp [he]

/-- A non-empty string is not `isEmpty`. -/
theorem isEmpty_false_of_ne (s : String) (h : s ≠ "") : s.isEmpty = false := by
  cases hs : s.isEmpty with
  | false => rfl
  | true => exact absurd ((String.isEmpty_iff s).mp hs) h

/-- With both mandatory keys present, `validate` proceeds to title
resolution. -/
theorem validate_of_keys (b : FieldBag)
    (ht : b.hasKey "tanggal" = true) (hw : b.hasKey "waktu" = true) :
    validate b =
      match pyOr (b.find "judul") (b.find "judul_acara") with
      | none => ValidationResult.missingTitle
      | some t =>
        if t.isEmpty then ValidationResult.missingTitle
        else ValidationResult.ok
          { title := t
            location := (b.find "lokasi").getD ""
            date := (b.find "tanggal").getD ""
            time := (b.find "waktu").getD ""
            category := (b.find "kategori").getD "Lainnya" } := by
  have hne : b.entries.isEmpty = false := FieldBag.isEmpty_false_of_hasKey b "tanggal" ht
  unfold validate
  rw [hne, ht, hw]
  simp

/-- The delete loop attempts a delete call for every event, in order. -/
theorem deleteAllLoop_calls (ok : String → Bool) (l : List CalendarEvent) :
    (deleteAllLoop ok l).2 = l.map (fun e => GatewayCall.deleteCall e.id) := by
  induction l with
  | nil => rfl
  | cons e rest ih => simp [deleteAllLoop, ih]

/-- The delete loop counts exactly the successful deletions. -/
theorem deleteAllLoop_count (ok : String → Bool) (l : List CalendarEvent) :
    (deleteAllLoop ok l).1 = l.countP (fun e => ok e.id) := by
  induction l with
  | nil => rfl
  | cons e rest ih =>
    simp [deleteAllLoop, ih, List.countP_cons]
    cases h : ok e.id <;> simp [h]

/-- Reduction of `button_handler` on the confirm callback when the
service is up and the re-fetch succeeds. -/
theorem buttonHandler_confirm (gw : GatewayBehavior) (items : List CalendarEvent)
    (hs : gw.serviceOk = true) (hl : gw.listResult confirmDeleteQuery = some items) :
    buttonHandler gw "confirm_delete_all" =
      ⟨false,
        some (deleteDoneMessage (deleteAllLoop gw.deleteOk (filterBirthday items)).1),
        some (deleteAllLoop gw.deleteOk (filterBirthday items)).1,
        GatewayCall.listCall confirmDeleteQuery ::
          (deleteAllLoop gw.deleteOk (filterBirthday items)).2⟩ := by
  have h1 : strStartsWith "confirm_delete_all" "delete_event_" = false := by decide
  unfold buttonHandler
  rw [hs, hl, h1]
  simp

/-- Extracting the delete ids from a confirm-branch call trace. -/
theorem deleteCallsOf_confirm (q : ListQuery) (ok : String → Bool)
    (l : List CalendarEvent) :
    deleteCallsOf (GatewayCall.listCall q :: (deleteAllLoop ok l).2) =
      l.map (fun e => e.id) := by
  rw [deleteAllLoop_calls]
  induction l with
  | nil => rfl
  | cons e rest ih =>
    simpa [deleteCallsOf] using ih

/-- With a mandatory key absent, `validate` rejects immediately. -/
theorem validate_missingDT_of_absent_key (b : FieldBag)
    (h : b.hasKey "tanggal" = false ∨ b.hasKey "waktu" = false) :
    validate b = ValidationResult.missingDateTime := by
  unfold validate
  rcases h with h | h <;> rw [h] <;> simp

/-! ## Claim theorems -/

/-- C4: the filter removes exactly the events whose summary contains the
exclusion substring under case-insensitive comparison — in particular
"Happy Birthday Sam" and "HAPPY BIRTHDAY SAM" are both removed — and the
surviving events keep their relative order (the result is a sublist of
the input). -/
theorem filter_exclusion_case_insensitive :
    (∀ (events : List CalendarEvent) (e : CalendarEvent),
        e ∈ filterBirthday events ↔
          e ∈ events ∧
            strContains (toLowerStr (e.summary.getD "")) "happy birthday" = false)
    ∧ (∀ events : List CalendarEvent, (filterBirthday events).Sublist events)
    ∧ filterBirthday [evMixed, evUpper, evKeep] = [evKeep] := by
  refine ⟨?_, ?_, by decide⟩
  · intro events e
    simp [filterBirthday, filterExclude, List.mem_filter]
  · intro events
    exact List.filter_sublist events

/-- C5: the exclusion filter is idempotent — filtering an already
filtered list with the same exclusion substring returns it unchanged. -/
theorem filter_exclude_idempotent :
    ∀ (sub : String) (events : List CalendarEvent),
      filterExclude sub (filterExclude sub events) = filterExclude sub events := by
  intro sub events
  simp [filterExclude, List.filter_filter]

/-- C1: confirming delete-all attempts a deletion for the full
exclusion-filtered fetched set: the delete-call trace is exactly the ids
of the filtered fetch, and on the concrete fifteen-event calendar all
fifteen deletions are attempted while the display/selection flows cap at
ten entries. -/
theorem confirm_delete_all_full_scope :
    (∀ (gw : GatewayBehavior) (items : List CalendarEvent),
        gw.serviceOk = true →
        gw.listResult confirmDeleteQuery = some items →
        deleteCallsOf (buttonHandler gw "confirm_delete_all").calls =
          (filterBirthday items).map (fun e => e.id))
    ∧ deleteCallsOf (buttonHandler gwFifteen "confirm_delete_all").calls =
        fifteenEvents.map (fun e => e.id)
    ∧ (deleteCallsOf (buttonHandler gwFifteen "confirm_delete_all").calls).length = 15
    ∧ (deleteSelectiveCommand gwFifteen).reply =
        SelectReply.choices
          ((fifteenEvents.take 10).map
            (fun e => ("❌ " ++ e.summary.getD "", "delete_event_" ++ e.id)))
    ∧ (fifteenEvents.take 10).length = 10 := by
  refine ⟨?_, by decide, by decide, by decide, by decide⟩
  intro gw items hs hl
  rw [buttonHandler_confirm gw items hs hl]
  exact deleteCallsOf_confirm confirmDeleteQuery gw.deleteOk (filterBirthday items)

/-- C1 witness: the scope equation at the concrete fifteen-event
gateway. -/
theorem confirm_delete_all_full_scope_witness :
    deleteCallsOf (buttonHandler gwFifteen "confirm_delete_all").calls =
      (filterBirthday fifteenEvents).map (fun e => e.id) :=
  confirm_delete_all_full_scope.1 gwFifteen fifteenEvents rfl rfl

/-- C7: confirm-delete-all is partial-failure tolerant — every filtered
event has its deletion attempted, a failing deletion does not abort the
batch or crash the handler, and the reported count is exactly the number
of deletions that succeeded; over the concrete three-event batch where
the middle deletion fails the reported count is 2 and the reply is the
normal completion message. -/
theorem confirm_delete_all_tolerates_failures :
    (∀ (gw : GatewayBehavior) (items : List CalendarEvent),
        gw.serviceOk = true →
        gw.listResult confirmDeleteQuery = some items →
        (buttonHandler gw "confirm_delete_all").reportedCount =
          some ((filterBirthday items).countP (fun e => gw.deleteOk e.id))
        ∧ (buttonHandler gw "confirm_delete_all").crashed = false
        ∧ deleteCallsOf (buttonHandler gw "confirm_delete_all").calls =
            (filterBirthday items).map (fun e => e.id))
    ∧ (buttonHandler gwOneFails "confirm_delete_all").reportedCount = some 2
    ∧ (buttonHandler gwOneFails "confirm_delete_all").reply =
        some (deleteDoneMessage 2)
    ∧ deleteCallsOf (buttonHandler gwOneFails "confirm_delete_all").calls =
        ["ea", "eb", "ec"]
    ∧ (buttonHandler gwOneFails "confirm_delete_all").crashed = false := by
  refine ⟨?_, by decide, by decide, by decide, by decide⟩
  intro gw items hs hl
  rw [buttonHandler_confirm gw items hs hl]
  refine ⟨?_, rfl, ?_⟩
  · rw [deleteAllLoop_count]
  · exact deleteCallsOf_confirm confirmDeleteQuery gw.deleteOk (filterBirthday items)

/-- C7 witness: the count equations at the concrete one-failure
gateway. -/
theorem confirm_delete_all_tolerates_failures_witness :
    (buttonHandler gwOneFails "confirm_delete_all").reportedCount =
      some ((filterBirthday threeEvents).countP (fun e => gwOneFails.deleteOk e.id))
    ∧ (buttonHandler gwOneFails "confirm_delete_all").crashed = false
    ∧ deleteCallsOf (buttonHandler gwOneFails "confirm_delete_all").calls =
        (filterBirthday threeEvents).map (fun e => e.id) :=
  confirm_delete_all_tolerates_failures.1 gwOneFails threeEvents rfl rfl

/-- C9: confirm-delete-all re-fetches at confirmation time with the
unbounded upcoming-from-UTC-now window (no `maxResults` cap), unlike the
local-start-of-today floor of ReadSchedule, and the deletions it attempts
are exactly the exclusion-filtered re-fetched set. -/
theorem confirm_delete_all_refetch_unbounded_window :
    confirmDeleteQuery.timeMin = TimeFloor.utcNow
    ∧ confirmDeleteQuery.maxResults = none
    ∧ readQuery.timeMin = TimeFloor.localStartOfToday
    ∧ readQuery.maxResults = some 20
    ∧ (∀ (gw : GatewayBehavior) (items : List CalendarEvent),
        gw.serviceOk = true →
        gw.listResult confirmDeleteQuery = some items →
        (buttonHandler gw "confirm_delete_all").calls =
          GatewayCall.listCall confirmDeleteQuery ::
            (filterBirthday items).map (fun e => GatewayCall.deleteCall e.id)) := by
  refine ⟨rfl, rfl, rfl, rfl, ?_⟩
  intro gw items hs hl
  rw [buttonHandler_confirm gw items hs hl, deleteAllLoop_calls]

/-- C9 witness: the call trace at the healthy empty-calendar gateway. -/
theorem confirm_delete_all_refetch_unbounded_window_witness :
    (buttonHandler gwOk "confirm_delete_all").calls =
      GatewayCall.listCall confirmDeleteQuery ::
        (filterBirthday []).map (fun e => GatewayCall.deleteCall e.id) :=
  confirm_delete_all_refetch_unbounded_window.2.2.2.2 gwOk [] rfl rfl

/-- C2: whenever the date key or the time key is absent from the field
bag, validation rejects with the missing date/time rejection and its user
message, no intent is built, and `handle_message` makes no gateway call —
regardless of the gateway behaviour and of any title keys. -/
theorem validate_missing_datetime_rejects :
    ∀ (gw : GatewayBehavior) (b : FieldBag),
      b.hasKey "tanggal" = false ∨ b.hasKey "waktu" = false →
      validate b = ValidationResult.missingDateTime
      ∧ rejectionMessage (validate b) = some msgMissingDateTime
      ∧ handleMessage gw b = ⟨HandleOutcome.rejectedDateTime, [], false⟩ := by
  intro gw b h
  have hv : validate b = ValidationResult.missingDateTime :=
    validate_missingDT_of_absent_key b h
  refine ⟨hv, by rw [hv]; rfl, ?_⟩
  unfold handleMessage
  rw [hv]

/-- C2 witness: the bag lacking the time key is rejected. -/
theorem validate_missing_datetime_rejects_witness :
    validate bagNoTime = ValidationResult.missingDateTime
    ∧ rejectionMessage (validate bagNoTime) = some msgMissingDateTime
    ∧ handleMessage gwOk bagNoTime = ⟨HandleOutcome.rejectedDateTime, [], false⟩ :=
  validate_missing_datetime_rejects gwOk bagNoTime (Or.inr (by decide))

/-- C3: with date and time present and a non-empty title only under the
fallback key `judul_acara`, validation succeeds and the resulting title is
the fallback value; with neither title key present it rejects with the
missing-title rejection, which is distinguishable (as a constructor and
as a user message) from the date/time rejection. -/
theorem validate_title_fallback_key :
    (∀ (b : FieldBag) (v : String),
        b.hasKey "tanggal" = true → b.hasKey "waktu" = true →
        b.find "judul" = none → b.find "judul_acara" = some v → v ≠ "" →
        validate b = ValidationResult.ok
          { title := v
            location := (b.find "lokasi").getD ""
            date := (b.find "tanggal").getD ""
            time := (b.find "waktu").getD ""
            category := (b.find "kategori").getD "Lainnya" })
    ∧ (∀ b : FieldBag,
        b.hasKey "tanggal" = true → b.hasKey "waktu" = true →
        b.find "judul" = none → b.find "judul_acara" = none →
        validate b = ValidationResult.missingTitle)
    ∧ ValidationResult.missingTitle ≠ ValidationResult.missingDateTime
    ∧ rejectionMessage ValidationResult.missingTitle ≠
        rejectionMessage ValidationResult.missingDateTime := by
  refine ⟨?_, ?_, by decide, by decide⟩
  · intro b v ht hw hj hja hv
    rw [validate_of_keys b ht hw, hj, hja]
    simp [pyOr, pyTruthy, isEmpty_false_of_ne v hv]
  · intro b ht hw hj hja
    rw [validate_of_keys b ht hw, hj, hja]
    rfl

/-- C3 witness: the fallback-key bag validates to the fallback title. -/
theorem validate_title_fallback_key_witness :
    validate bagFallback = ValidationResult.ok
      { title := "Rapat Tim"
        location := ""
        date := "2025-01-01"
        time := "10:00:00"
        category := "Lainnya" } :=
  validate_title_fallback_key.1 bagFallback "Rapat Tim"
    (by decide) (by decide) (by decide) (by decide) (by decide)

/-- C10: title resolution is falsiness-based — a primary title key bound
to the empty string falls through to the fallback key; when both title
keys are absent or bound to empty strings the bag is rejected with the
missing-title rejection; and every intent validation accepts has a
non-empty title. -/
theorem title_resolution_falsiness :
    (∀ (b : FieldBag) (v : String),
        b.hasKey "tanggal" = true → b.hasKey "waktu" = true →
        b.find "judul" = some "" → b.find "judul_acara" = some v → v ≠ "" →
        validate b = ValidationResult.ok
          { title := v
            location := (b.find "lokasi").getD ""
            date := (b.find "tanggal").getD ""
            time := (b.find "waktu").getD ""
            category := (b.find "kategori").getD "Lainnya" })
    ∧ (∀ b : FieldBag,
        b.hasKey "tanggal" = true → b.hasKey "waktu" = true →
        (b.find "judul" = none ∨ b.find "judul" = some "") →
        (b.find "judul_acara" = none ∨ b.find "judul_acara" = some "") →
        validate b = ValidationResult.missingTitle)
    ∧ (∀ (b : FieldBag) (i : ScheduleIntent),
        validate b = ValidationResult.ok i → i.title ≠ "") := by
  refine ⟨?_, ?_, ?_⟩
  · intro b v ht hw hj hja hv
    rw [validate_of_keys b ht hw, hj, hja]
    have h0 : pyOr (some "") (some v) = some v := rfl
    rw [h0]
    simp [isEmpty_false_of_ne v hv]
  · intro b ht hw hj hja
    rw [validate_of_keys b ht hw]
    rcases hj with hj | hj <;> rcases hja with hja | hja <;> rw [hj, hja] <;> rfl
  · intro b i h
    by_cases ht : b.hasKey "tanggal" = true
    · by_cases hw : b.hasKey "waktu" = true
      · rw [validate_of_keys b ht hw] at h
        cases hm : pyOr (b.find "judul") (b.find "judul_acara") with
        | none => rw [hm] at h; exact absurd h (by simp)
        | some t =>
          rw [hm] at h
          split at h
          · rename_i heq
            exact absurd heq (by simp)
          · rename_i s heq
            split at h
            · exact absurd h (by simp)
            · rename_i hEmpty
              injection h with h2
              rw [← h2]
              intro hc
              have hst : s = "" := hc
              rw [hst] at hEmpty
              exact hEmpty rfl
      · have hv := validate_missingDT_of_absent_key b
          (Or.inr (Bool.eq_false_iff.mpr hw))
        rw [hv] at h
        exact absurd h (by simp)
    · have hv := validate_missingDT_of_absent_key b
        (Or.inl (Bool.eq_false_iff.mpr ht))
      rw [hv] at h
      exact absurd h (by simp)

/-- C10 witness: the empty primary title falls through to the fallback
key. -/
theorem title_resolution_falsiness_witness :
    validate bagEmptyPrimary = ValidationResult.ok
      { title := "Rapat Tim"
        location := ""
        date := "2025-01-01"
        time := "10:00:00"
        category := "Lainnya" } :=
  title_resolution_falsiness.1 bagEmptyPrimary "Rapat Tim"
    (by decide) (by decide) (by decide) (by decide) (by decide)

/-- C6: creating from the validated fields title "Shoot", date
"2025-05-01", time "14:00:00" with no location builds and inserts an
event starting 2025-05-01T14:00:00 and ending exactly one hour later at
2025-05-01T15:00:00, with empty location and the default-category
description — and in general every built event body ends exactly one hour
after its start (the fixed default duration). -/
theorem create_event_shoot_default_duration :
    handleMessage gwOk bagShoot =
      ⟨HandleOutcome.created shootBody, [GatewayCall.insertCall shootBody], false⟩
    ∧ shootBody.startDT = ⟨2025, 5, 1, 14, 0, 0⟩
    ∧ shootBody.endDT = ⟨2025, 5, 1, 15, 0, 0⟩
    ∧ shootBody.location = ""
    ∧ shootBody.description = "Kategori: Lainnya"
    ∧ (∀ (i : ScheduleIntent) (body : EventBody),
        buildEventBody i = some body → body.endDT = addOneHour body.startDT) := by
  refine ⟨by decide, rfl, rfl, rfl, rfl, ?_⟩
  intro i body h
  unfold buildEventBody at h
  cases hp : parseIso (i.date ++ "T" ++ i.time) with
  | none => rw [hp] at h; exact absurd h (by simp)
  | some st =>
    rw [hp] at h
    injection h with h2
    rw [← h2]

/-- C6 witness: the one-hour default duration at the concrete Shoot
intent. -/
theorem create_event_shoot_default_duration_witness :
    buildEventBody shootIntent = some shootBody
    ∧ shootBody.endDT = addOneHour shootBody.startDT :=
  ⟨by decide,
    create_event_shoot_default_duration.2.2.2.2.2 shootIntent shootBody (by decide)⟩

/-- C8 counterexample: the claim that every Gateway failure is caught at
the handler boundary is false — at the concrete gateway whose list call
raises, `delete_selective_command` (which has no try/except) propagates
the failure out of the handler. -/
theorem list_deletable_gateway_failure_uncaught :
    (deleteSelectiveCommand gwListFails).crashed = true := by decide

/-- C8 amended: failures are caught inside ReadSchedule and CreateEvent,
and a failing individual deletion in the delete-event callback is caught;
but a failing service acquisition propagates out of ListDeletable and out
of every button callback, and a failing list call propagates out of
ListDeletable and out of the confirm-delete-all re-fetch. -/
theorem orchestrator_error_boundaries :
    (∀ gw : GatewayBehavior, (getScheduleCommand gw).crashed = false)
    ∧ (∀ (gw : GatewayBehavior) (b : FieldBag), (handleMessage gw b).crashed = false)
    ∧ (∀ (gw : GatewayBehavior) (data : String),
        gw.serviceOk = true → strStartsWith data "delete_event_" = true →
        (buttonHandler gw data).crashed = false)
    ∧ (∀ gw : GatewayBehavior, gw.serviceOk = false →
        (deleteSelectiveCommand gw).crashed = true)
    ∧ (∀ gw : GatewayBehavior, gw.serviceOk = true →
        gw.listResult selectQuery = none →
        (deleteSelectiveCommand gw).crashed = true)
    ∧ (∀ (gw : GatewayBehavior) (data : String), gw.serviceOk = false →
        (buttonHandler gw data).crashed = true)
    ∧ (∀ gw : GatewayBehavior, gw.serviceOk = true →
        gw.listResult confirmDeleteQuery = none →
        (buttonHandler gw "confirm_delete_all").crashed = true) := by
  refine ⟨?_, ?_, ?_, ?_, ?_, ?_, ?_⟩
  · intro gw
    cases hs : gw.serviceOk
    · simp [getScheduleCommand, hs]
    · cases hl : gw.listResult readQuery with
      | none => simp [getScheduleCommand, hs, hl]
      | some items =>
        simp only [getScheduleCommand, hs, hl, Bool.not_true, Bool.false_eq_true,
          if_false]
        split <;> rfl
  · intro gw b
    cases hv : validate b with
    | missingDateTime => simp [handleMessage, hv]
    | missingTitle => simp [handleMessage, hv]
    | ok i =>
      cases hs : gw.serviceOk
      · simp [handleMessage, hv, hs]
      · cases hb : buildEventBody i with
        | none => simp [handleMessage, hv, hs, hb]
        | some body =>
          cases hi : gw.insertOk body <;> simp [handleMessage, hv, hs, hb, hi]
  · intro gw data hs hd
    unfold buttonHandler
    rw [hs, hd]
    simp only [Bool.not_true]
    split
    · rename_i hc
      exact absurd hc (by decide)
    · split
      · split <;> rfl
      · rename_i hc
        exact absurd trivial hc
  · intro gw h
    simp [deleteSelectiveCommand, h]
  · intro gw hs hl
    simp [deleteSelectiveCommand, hs, hl]
  · intro gw data h
    simp [buttonHandler, h]
  · intro gw hs hl
    have h1 : strStartsWith "confirm_delete_all" "delete_event_" = false := by decide
    simp [buttonHandler, hs, hl, h1]

/-- C8 amended witness: the confirm-delete-all re-fetch failure crashes
the button handler at the concrete list-failing gateway. -/
theorem orchestrator_error_boundaries_witness :
    (buttonHandler gwListFails "confirm_delete_all").crashed = true :=
  orchestrator_error_boundaries.2.2.2.2.2.2 gwListFails rfl rfl
